import Mathlib

/-!
Verification development for the simplestore library (src/index.js and
src/lib/utils.js): a guarded mutable-state container.  JavaScript values are
shallowly embedded as an inductive type; the proxy handler (get/set traps),
the seed normalization pipeline (setProp / validate), the factory (Store) and
the dispatchers (commit / action) are translated from the source.  Mutations
are modelled as state transformers on the data mapping (a JS mutation mutates
`this.data` in place; here it returns the updated mapping together with its
return value), and asynchronous actions are modelled as small programs (Act)
whose only effectful step is a commit through the store's bound dispatch,
mirroring that `boundCommit` is the action's sole state-changing capability.
-/

namespace SimpleStore

/-- Embedded JavaScript values.  `fn ret` models a function value whose
invocation with zero arguments yields `ret` (seed groups may be zero-argument
producers; mutation/action values stored in seeds are only inspected via
`typeof` at construction time, so their payload is irrelevant there).
`builtinFn m` is the built-in function Object.prototype.m, reachable through
the prototype chain of every plain object the program builds; `hostRef tag`
is a reference to an engine or internal object the model does not open up
(Object.prototype itself, the store's internal records) — both are truthy,
and reference identity between host objects is not modelled. -/
inductive JSVal : Type where
  | undefined : JSVal
  | null : JSVal
  | bool : Bool → JSVal
  | num : Int → JSVal
  | str : String → JSVal
  | obj : List (String × JSVal) → JSVal
  | fn : JSVal → JSVal
  | builtinFn : String → JSVal
  | hostRef : String → JSVal
deriving Repr

/-- JavaScript truthiness: undefined, null, false, 0 and the empty string are
falsy; objects and functions (built-ins included) are always truthy. -/
def truthy : JSVal → Bool
  | .undefined => false
  | .null => false
  | .bool b => b
  | .num n => n != 0
  | .str s => s != ""
  | .obj _ => true
  | .fn _ => true
  | .builtinFn _ => true
  | .hostRef _ => true

/-- JavaScript typeof (note typeof null is the string object). -/
def typeof : JSVal → String
  | .undefined => "undefined"
  | .null => "object"
  | .bool _ => "boolean"
  | .num _ => "number"
  | .str _ => "string"
  | .obj _ => "object"
  | .fn _ => "function"
  | .builtinFn _ => "function"
  | .hostRef _ => "object"

/-- Association-list lookup, modelling property access on a plain JS object
(keys of a JS object are unique; the first binding wins). -/
def assocLookup {α : Type} : List (String × α) → String → Option α
  | [], _ => none
  | (k, v) :: rest, key => if k = key then some v else assocLookup rest key

/-- Mapping for a JS object's contents: insertion-ordered key/value pairs. -/
abbrev JSMap := List (String × JSVal)

/-- Member names of Object.prototype, the prototype of every plain object the
program builds (object literals and Object.assign results): all are
non-enumerable, so for-in never sees them, but bare property reads fall
through to them when no own key shadows them. -/
def OBJECT_PROTO_FNS : List String :=
  ["constructor", "hasOwnProperty", "isPrototypeOf", "propertyIsEnumerable",
   "toLocaleString", "toString", "valueOf",
   "__defineGetter__", "__defineSetter__", "__lookupGetter__", "__lookupSetter__"]

/-- Inherited lookup on Object.prototype: the function-valued members
(`builtinFn`), the `__proto__` accessor whose getter yields Object.prototype
itself, and nothing else. -/
def objectProtoGet (k : String) : Option JSVal :=
  if k = "__proto__" then some (.hostRef "Object.prototype")
  else if OBJECT_PROTO_FNS.contains k then some (.builtinFn k)
  else none

/-- Property read `o[k]` on a plain object: an own property (even holding a
falsy value such as undefined) shadows the chain; otherwise the lookup falls
through to Object.prototype; a miss everywhere reads as undefined. -/
def chainLookup (d : JSMap) (k : String) : JSVal :=
  match assocLookup d k with
  | some v => v
  | none => (objectProtoGet k).getD .undefined

/-- Property write `o[k] = v` on a plain data mapping: an existing key is
updated in place (insertion order kept), a new key is appended. -/
def jsSet : JSMap → String → JSVal → JSMap
  | [], k, v => [(k, v)]
  | (k1, v1) :: rest, k, v =>
      if k1 = k then (k1, v) :: rest else (k1, v1) :: jsSet rest k v

/-- The RESERVEDWORDS constant of src/index.js. -/
def RESERVEDWORDS : List String := ["data", "action", "commit"]

/-- First binding of a mapping whose key is a reserved word, in iteration
order — the offender reported by the `for key in obj` reserved-word scans. -/
def findReserved (d : JSMap) : Option (String × JSVal) :=
  d.find? (fun kv => RESERVEDWORDS.contains kv.1)

/-- Keys enumerated by `for (let key in v)`: the own enumerable properties of
an object; primitives (and null) enumerate nothing.  (A string would enumerate
index keys, but every call site runs after a typeof-object check.) -/
def jsKeys : JSVal → JSMap
  | .obj fields => fields
  | _ => []

/-- Seed resolution steps of setProp (src/index.js lines 249-261):
`let ret; if (!value) ret = empty; if (typeof value === function)
ret = value(); if (!ret) ret = value;`.  A falsy value yields the empty
mapping; a function is invoked with no arguments, falling back to the function
object itself when the call result is falsy; a truthy non-function is used
as-is. -/
def resolveSeed : JSVal → JSVal
  | .fn p => if truthy p then p else .fn p
  | v => if truthy v then v else .obj []

/-- Character-list test: the first list opens the second. -/
def leadsWith : List Char → List Char → Bool
  | [], _ => true
  | _ :: _, [] => false
  | p :: ps, c :: cs => p == c && leadsWith ps cs

/-- Character-list test: the first list occurs contiguously in the second. -/
def hasSub (pat : List Char) : List Char → Bool
  | [] => leadsWith pat []
  | c :: cs => leadsWith pat (c :: cs) || hasSub pat cs

/-- The regular expression test `/(actions|mutations)/.test(desc)` of setProp:
true when desc contains actions or mutations as a substring. -/
def descIsFunctionGroup (desc : String) : Bool :=
  hasSub "actions".toList desc.toList || hasSub "mutations".toList desc.toList

/-- The validate function of src/index.js (lines 287-308): reject
non-objects, then reject any reserved-word key, then (unless the allowed
types list opens with the wildcard) reject any value whose typeof is not an
allowed type.  Each loop reports the first offender in iteration order. -/
def validate (v : JSVal) (types : List String) (desc : String) :
    Except String JSVal :=
  if typeof v = "object" then
    match findReserved (jsKeys v) with
    | some kv => .error ("DontTouchMyReservedwords: " ++ kv.1)
    | none =>
      if types.head? = some "*" then
        .ok v
      else
        match (jsKeys v).find? (fun kv => !(types.contains (typeof kv.2))) with
        | some kv =>
            .error ("DisallowedTypeError: " ++ desc ++ " can't accept "
              ++ typeof kv.2)
        | none => .ok v
  else
    .error ("ValidationError: " ++ desc ++ " doesn't resolve to an object")

/-- The setProp function of src/index.js (lines 248-268): resolve the seed
value, pick the allowed value types from the group name, validate, and return
a fresh shallow copy of the validated mapping (Object.assign onto an empty
object; Object.assign of null contributes nothing). -/
def setProp (value : JSVal) (desc : String) : Except String JSMap :=
  match validate (resolveSeed value)
      (if descIsFunctionGroup desc then ["function"] else ["*"]) desc with
  | .ok v => .ok (jsKeys v)
  | .error e => .error e

/-- The props helper of src/lib/utils.js: true when the object has at least
one key.  Both call sites pass the object produced by setProp, so the
`typeof obj === object` conjunct of the source is always true there. -/
def props (d : JSMap) : Bool :=
  decide (1 ≤ d.length)

/-- Property access `seed.g` on the seed argument, through the prototype
chain (the three keys the factory reads — data, mutations, actions — are not
Object.prototype members, so for them this coincides with the own lookup). -/
def seedGet (seed : JSVal) (g : String) : JSVal :=
  match seed with
  | .obj fields => chainLookup fields g
  | _ => .undefined

/-- The normalized root record assembled by the Store factory: the three
validated mappings `{ data, mutations, actions }`. -/
structure NormSeed : Type where
  data : JSMap
  mutations : JSMap
  actions : JSMap
deriving Repr

/-- The Store factory of src/index.js (lines 214-235): require a truthy
object seed, normalize the three groups through setProp in order (data,
mutations, actions — the first failure propagates), require at least one data
key or one mutation key, and return the root record (which the source wraps
in the proxy handler and freezes). -/
def Store (seed : JSVal) : Except String NormSeed :=
  if truthy seed = false ∨ typeof seed ≠ "object" then
    .error "SeedRequiredError: Must supply object to `new Store()`"
  else
    match setProp (seedGet seed "data") "data" with
    | .error e => .error e
    | .ok data =>
      match setProp (seedGet seed "mutations") "mutations" with
      | .error e => .error e
      | .ok mutations =>
        match setProp (seedGet seed "actions") "actions" with
        | .error e => .error e
        | .ok actions =>
          if props data = false ∧ props mutations = false then
            .error "NoPointError: Must have at least 1 data or mutation prop"
          else
            .ok ⟨data, mutations, actions⟩

/-- A mutation value at run time: a JS mutation receives `(this.data, value)`,
mutates the data mapping in place and returns an arbitrary value; it is
modelled as a transformer producing the updated mapping and the return
value. -/
abbrev Mutation := JSMap → JSVal → JSMap × JSVal

/-- Program of an action body.  Its only effectful step is a commit through
the bound dispatch it received (`commitDo`); `await` marks a suspension point
(no effect on this store); `ret` is the value the action's promise resolves
to. -/
inductive Act : Type where
  | ret : JSVal → Act
  | await : Act → Act
  | commitDo : String → JSVal → Act → Act

/-- An action value at run time: invoked as `action(boundCommit, value)`, it
yields the program of its body applied to the value (the bound commit
capability is consumed by the `commitDo` steps). -/
abbrev Action := JSVal → Act

/-- The proxy target of src/index.js: the root record `{ data, mutations,
actions }`.  After construction every value in mutations and actions is a
function (validate enforces it), so the mappings carry the functions'
semantics directly: an own-key hit is a function (truthy); a miss falls
through to the records' prototype, Object.prototype, which the dispatchers
model explicitly. -/
structure Root : Type where
  data : JSMap
  mutations : List (String × Mutation)
  actions : List (String × Action)

/-- Result of the proxy get trap: the bound commit dispatch, the bound action
dispatch, or a plain value (a data value, or undefined when the trap falls
through). -/
inductive GetResult : Type where
  | boundCommit : GetResult
  | boundAction : GetResult
  | val : JSVal → GetResult

/-- The handler.get trap of src/index.js (lines 177-193) combined with the
engine's proxy get invariant: commit and action return bound dispatch
functions (the frozen target has no own property under either name, so no
invariant applies); reading data throws inside the trap before any invariant
check; for every other key the trap evaluates `target.data[prop]` through the
prototype chain and returns it when truthy, falling through to undefined
otherwise.  The factory freezes the proxy, which (with no preventExtensions
or defineProperty traps) freezes the target, so mutations and actions become
non-writable non-configurable own properties of the target; the get invariant
then requires the trap's result to be those very records, which it never is
(no JSVal denotes the internal records, and in the program no reachable data
value aliases them), so the engine raises a TypeError after the trap returns
— the model folds trap-plus-check into the one observable outcome. -/
def handleGet (root : Root) (prop : String) : Except String GetResult :=
  if prop = "commit" then .ok .boundCommit
  else if prop = "action" then .ok .boundAction
  else if prop = "data" then
    .error "NoDirectAccessForYou: you must use a mutation."
  else if prop = "mutations" ∨ prop = "actions" then
    .error ("TypeError: proxy get invariant violated: " ++ prop)
  else if truthy (chainLookup root.data prop) then
    .ok (.val (chainLookup root.data prop))
  else .ok (.val .undefined)

/-- The handler.set trap of src/index.js (lines 194-196), `set: () => true`,
combined with the engine's proxy set invariant: the trap touches nothing and
reports success, but for the frozen target's own keys data, mutations and
actions the engine requires the assigned value to be the record itself
(SameValue) before accepting the truish trap result — no JSVal denotes those
records (reference identity is outside the model), so assigning any
expressible value to those three keys raises a TypeError in strict mode, and
every other write is a silent no-op. -/
def handleSet (root : Root) (prop : String) (_v : JSVal) :
    Root × Except String Bool :=
  if prop = "data" ∨ prop = "mutations" ∨ prop = "actions" then
    (root, .error ("TypeError: proxy set invariant violated: " ++ prop))
  else
    (root, .ok true)

/-- Invocation of the inherited Object.prototype member named m as a method
of one of the store's internal records (`this.mutations[name](arg1, value)`
or `this.actions[name](arg1, value)` when name is no own key): toString and
toLocaleString on a plain record yield the string [object Object]; valueOf
returns the receiver record itself (a host reference); constructor is the
Object function, which hands back its first (object or function) argument;
hasOwnProperty and propertyIsEnumerable coerce the first argument to the
property key argKey and test the record's own (all enumerable) keys;
isPrototypeOf is false — a record is no value's prototype; the two lookup
members find no accessor on a record built purely of data properties; the
two define members demand a callable and otherwise throw, and on success
install an accessor under argKey on the record and return undefined (the
installed accessor itself lies outside the record model, which carries only
the registered functions); reading `__proto__` yields Object.prototype,
which is not callable, so that call throws a TypeError. -/
def protoMemberCall (m recvTag : String) (recvKeys : List String)
    (argKey : String) (firstArg value : JSVal) : Except String JSVal :=
  if m = "toString" ∨ m = "toLocaleString" then .ok (.str "[object Object]")
  else if m = "valueOf" then .ok (.hostRef recvTag)
  else if m = "constructor" then .ok firstArg
  else if m = "hasOwnProperty" ∨ m = "propertyIsEnumerable" then
    .ok (.bool (recvKeys.contains argKey))
  else if m = "isPrototypeOf" then .ok (.bool false)
  else if m = "__lookupGetter__" ∨ m = "__lookupSetter__" then .ok .undefined
  else if m = "__defineGetter__" ∨ m = "__defineSetter__" then
    if typeof value = "function" then .ok .undefined
    else .error ("TypeError: " ++ m ++ " argument must be a function")
  else .error ("TypeError: " ++ recvTag ++ "." ++ m ++ " is not a function")

/-- The commit dispatcher of src/index.js (lines 319-330): evaluate
`this.mutations[name]` — an own key yields the registered mutation (a
function, hence truthy); with no own key the lookup falls through to
Object.prototype, whose members are all truthy, so the branch is also taken
and the member is invoked as `this.mutations[name](this.data, value)` (the
first argument's property-key conversion is the default [object Object] of a
plain data record); only a miss everywhere is falsy and throws
NoSuchMutationError.  After a call that returns, the keys of `this.data` are
re-scanned and the first reserved word found is thrown.  The first component
of the result is the root after the call: a mutation's in-place update of
the data mapping persists even when the reserved-word scan throws. -/
def commit (root : Root) (name : String) (value : JSVal) :
    Root × Except String JSVal :=
  match assocLookup root.mutations name with
  | some m =>
    let r := m root.data value
    let root2 : Root := { root with data := r.1 }
    match findReserved r.1 with
    | some kv => (root2, .error ("DontTouchMyReservedwords: " ++ kv.1))
    | none => (root2, .ok r.2)
  | none =>
    match objectProtoGet name with
    | some _ =>
      match protoMemberCall name "mutations record" (root.mutations.map Prod.fst)
          "[object Object]" (.obj root.data) value with
      | .error e => (root, .error e)
      | .ok ret =>
        match findReserved root.data with
        | some kv => (root, .error ("DontTouchMyReservedwords: " ++ kv.1))
        | none => (root, .ok ret)
    | none =>
      (root, .error ("NoSuchMutationError: " ++ name
        ++ " is not a registered mutation."))

/-- The action dispatcher of src/index.js (lines 341-346): evaluate
`this.actions[name]` — an own key yields the registered action (truthy),
invoked as `action(boundCommit, value)` with its result returned verbatim —
for an asynchronous action, the in-flight program, not awaited; with no own
key the lookup falls through to the truthy Object.prototype members, invoked
as `this.actions[name](boundCommit, value)` (a bound function's property-key
conversion is its source string), whose plain result is the value the caller
receives; only a miss everywhere throws NoSuchActionError. -/
def actionDispatch (root : Root) (name : String) (value : JSVal) :
    Except String Act :=
  match assocLookup root.actions name with
  | some a => .ok (a value)
  | none =>
    match objectProtoGet name with
    | some _ =>
      match protoMemberCall name "actions record" (root.actions.map Prod.fst)
          "function () \x7b [native code] \x7d" (.hostRef "bound commit") value with
      | .ok v => .ok (.ret v)
      | .error e => .error e
    | none =>
      .error ("NoSuchActionError: " ++ name ++ " is not a registered action.")

/-- Awaiting an action's program to completion: each commitDo step runs the
bound commit against the store's current root (so its state changes land in
this store's data); a commit that throws rejects the promise, with the data
changes made so far kept. -/
def runAct : Act → Root → Root × Except String JSVal
  | .ret v, root => (root, .ok v)
  | .await rest, root => runAct rest root
  | .commitDo n v rest, root =>
    match commit root n v with
    | (root2, .ok _) => runAct rest root2
    | (root2, .error e) => (root2, .error e)

/-! Helper lemmas shared by the claim theorems: how each dispatcher unfolds
once the lookup's outcome is known. -/

/-- Commit on a registered mutation name unfolds to the invocation followed
by the reserved-word re-scan of the updated data. -/
theorem commit_lookup_some (root : Root) (name : String) (value : JSVal)
    (m : Mutation) (hm : assocLookup root.mutations name = some m) :
    commit root name value =
      (match findReserved (m root.data value).1 with
       | some kv => ({ root with data := (m root.data value).1 },
           Except.error ("DontTouchMyReservedwords: " ++ kv.1))
       | none => ({ root with data := (m root.data value).1 },
           Except.ok (m root.data value).2)) := by
  unfold commit
  rw [hm]

/-- Commit on a name that is neither registered nor an Object.prototype
member leaves the root unchanged and throws NoSuchMutationError. -/
theorem commit_lookup_none (root : Root) (name : String) (value : JSVal)
    (hm : assocLookup root.mutations name = none)
    (hp : objectProtoGet name = none) :
    commit root name value = (root, Except.error ("NoSuchMutationError: "
      ++ name ++ " is not a registered mutation.")) := by
  unfold commit
  rw [hm, hp]

/-- C1: commit on a registered mutation name invokes the mutation
synchronously on the store's current data and the supplied value — the
resulting root's data is exactly the mutation's update of root.data — and,
when the post-mutation reserved-word scan finds nothing, commit returns the
mutation's return value. -/
theorem commit_invokes_mutation (root : Root) (name : String) (value : JSVal)
    (m : Mutation) (hm : assocLookup root.mutations name = some m) :
    (commit root name value).1.data = (m root.data value).1
    ∧ (findReserved (m root.data value).1 = none →
        commit root name value
          = ({ root with data := (m root.data value).1 },
             Except.ok (m root.data value).2)) := by
  rw [commit_lookup_some root name value m hm]
  constructor
  · cases h : findReserved (m root.data value).1 <;> rfl
  · intro hres
    rw [hres]

/-- Round-trip example store of the spec: data `{a: 1}` with the mutation
`set: (s, v) => { s.a = v; }`. -/
def setAMut : Mutation := fun d v => (jsSet d "a" v, .undefined)

/-- Root record of the round-trip example store. -/
def roundTripRoot : Root := ⟨[("a", .num 1)], [("set", setAMut)], []⟩

/-- C1 witness: the round-trip of the spec — committing `set` with 5 invokes
the mutation on the data mapping and a subsequent read of key a through the
guard returns 5. -/
theorem commit_invokes_mutation_witness :
    assocLookup roundTripRoot.mutations "set" = some setAMut
    ∧ findReserved (setAMut roundTripRoot.data (.num 5)).1 = none
    ∧ (commit roundTripRoot "set" (.num 5)).1.data
        = (setAMut roundTripRoot.data (.num 5)).1
    ∧ commit roundTripRoot "set" (.num 5)
        = ({ roundTripRoot with data := (setAMut roundTripRoot.data (.num 5)).1 },
           Except.ok (setAMut roundTripRoot.data (.num 5)).2)
    ∧ handleGet (commit roundTripRoot "set" (.num 5)).1 "a"
        = .ok (.val (.num 5)) :=
  ⟨rfl, rfl,
   (commit_invokes_mutation roundTripRoot "set" (.num 5) setAMut rfl).1,
   (commit_invokes_mutation roundTripRoot "set" (.num 5) setAMut rfl).2 rfl,
   rfl⟩

/-- C4: after a registered mutation runs, commit re-scans the keys of the
store's data; if the scan finds a reserved-word key, commit throws
DontTouchMyReservedwords naming it, and whenever commit returns successfully
the data holds no reserved-word key — the invariant is re-enforced after
every mutation. -/
theorem commit_rescans_reserved (root : Root) (name : String) (value : JSVal)
    (m : Mutation) (hm : assocLookup root.mutations name = some m) :
    (∀ kv, findReserved (m root.data value).1 = some kv →
        (commit root name value).2
          = Except.error ("DontTouchMyReservedwords: " ++ kv.1))
    ∧ (∀ ret, (commit root name value).2 = Except.ok ret →
        findReserved ((commit root name value).1.data) = none) := by
  rw [commit_lookup_some root name value m hm]
  constructor
  · intro kv h
    rw [h]
  · intro ret h
    cases hf : findReserved (m root.data value).1
    · exact hf
    · rw [hf] at h
      simp at h

/-- Mutation that smuggles the reserved key commit into the data mapping:
`(s, v) => { s.commit = v; }`. -/
def smuggleMut : Mutation := fun d v => (jsSet d "commit" v, .undefined)

/-- Store whose mutation bad smuggles a reserved key into data. -/
def smuggleRoot : Root := ⟨[("a", .num 1)], [("bad", smuggleMut)], []⟩

/-- C4 witness: committing the smuggling mutation throws
DontTouchMyReservedwords naming the smuggled key commit. -/
theorem commit_rescans_reserved_witness :
    assocLookup smuggleRoot.mutations "bad" = some smuggleMut
    ∧ findReserved (smuggleMut smuggleRoot.data (.num 7)).1
        = some ("commit", .num 7)
    ∧ (commit smuggleRoot "bad" (.num 7)).2
        = Except.error ("DontTouchMyReservedwords: " ++ "commit") :=
  ⟨rfl, rfl,
   (commit_rescans_reserved smuggleRoot "bad" (.num 7) smuggleMut rfl).1
     ("commit", .num 7) rfl⟩

/-- Store with only data, as in the dispatch-miss scenario of the spec. -/
def missRoot : Root := ⟨[("a", .num 1)], [], []⟩

/-- C6 counterexample: toString is registered in neither mapping, yet
dispatching it does not throw the claimed errors — `this.mutations[name]`
(and likewise `this.actions[name]`) finds the inherited, truthy
Object.prototype.toString, invokes it, and both dispatchers return the
string [object Object] instead of NoSuchMutationError / NoSuchActionError. -/
theorem dispatch_inherited_name_counterexample :
    assocLookup missRoot.mutations "toString" = none
    ∧ commit missRoot "toString" .undefined
        = (missRoot, Except.ok (.str "[object Object]"))
    ∧ assocLookup missRoot.actions "toString" = none
    ∧ actionDispatch missRoot "toString" .undefined
        = .ok (.ret (.str "[object Object]")) :=
  ⟨rfl, rfl, rfl, rfl⟩

/-- C6 (amended): dispatching commit against a name that is neither
registered in the mutations mapping nor an inherited Object.prototype member
— so that `this.mutations[name]` is undefined — throws NoSuchMutationError
naming it (and changes nothing), and dispatching action against a name that
is neither registered in the actions mapping nor such a member throws
NoSuchActionError naming it; a name reaching an inherited member (toString,
valueOf, ...) instead invokes that member. -/
theorem dispatch_miss_errors (root : Root) (name : String) (value : JSVal)
    (hp : objectProtoGet name = none) :
    (assocLookup root.mutations name = none →
      commit root name value = (root, Except.error ("NoSuchMutationError: "
        ++ name ++ " is not a registered mutation.")))
    ∧ (assocLookup root.actions name = none →
      actionDispatch root name value = Except.error ("NoSuchActionError: "
        ++ name ++ " is not a registered action.")) := by
  constructor
  · intro h
    exact commit_lookup_none root name value h hp
  · intro h
    unfold actionDispatch
    rw [h, hp]

/-- C6 witness: on a store with no registered mutations or actions,
committing nope (no Object.prototype member either) throws
NoSuchMutationError and dispatching the action nope throws
NoSuchActionError. -/
theorem dispatch_miss_errors_witness :
    objectProtoGet "nope" = none
    ∧ assocLookup missRoot.mutations "nope" = none
    ∧ assocLookup missRoot.actions "nope" = none
    ∧ commit missRoot "nope" .undefined = (missRoot,
        Except.error ("NoSuchMutationError: " ++ "nope"
          ++ " is not a registered mutation."))
    ∧ actionDispatch missRoot "nope" .undefined
        = Except.error ("NoSuchActionError: " ++ "nope"
          ++ " is not a registered action.") :=
  ⟨rfl, rfl, rfl,
   (dispatch_miss_errors missRoot "nope" .undefined rfl).1 rfl,
   (dispatch_miss_errors missRoot "nope" .undefined rfl).2 rfl⟩

/-- C10: commit is not atomic on its post-mutation check — when the mutation
leaves a reserved-word key in the data, commit throws only after the mutation
has run, and the root it leaves behind carries every change the mutation
made, smuggled key included (no rollback): subsequent reads and commits
observe the modified data. -/
theorem commit_no_rollback (root : Root) (name : String) (value : JSVal)
    (m : Mutation) (kv : String × JSVal)
    (hm : assocLookup root.mutations name = some m)
    (hres : findReserved (m root.data value).1 = some kv) :
    commit root name value
      = ({ root with data := (m root.data value).1 },
         Except.error ("DontTouchMyReservedwords: " ++ kv.1)) := by
  rw [commit_lookup_some root name value m hm, hres]

/-- Store used to exhibit the absence of rollback: data `{b: 2}` and the
smuggling mutation sneak. -/
def noRollbackRoot : Root := ⟨[("b", .num 2)], [("sneak", smuggleMut)], []⟩

/-- C10 witness: after the smuggling commit throws, the store's data still
holds both the original key and the smuggled reserved key, and a subsequent
guarded read observes the untouched original value. -/
theorem commit_no_rollback_witness :
    assocLookup noRollbackRoot.mutations "sneak" = some smuggleMut
    ∧ findReserved (smuggleMut noRollbackRoot.data (.num 9)).1
        = some ("commit", .num 9)
    ∧ commit noRollbackRoot "sneak" (.num 9)
        = ({ noRollbackRoot with data := (smuggleMut noRollbackRoot.data (.num 9)).1 },
           Except.error ("DontTouchMyReservedwords: " ++ "commit"))
    ∧ (commit noRollbackRoot "sneak" (.num 9)).1.data
        = [("b", .num 2), ("commit", .num 9)]
    ∧ handleGet (commit noRollbackRoot "sneak" (.num 9)).1 "b"
        = .ok (.val (.num 2)) :=
  ⟨rfl, rfl,
   commit_no_rollback noRollbackRoot "sneak" (.num 9) smuggleMut
     ("commit", .num 9) rfl rfl,
   rfl, rfl⟩

/-- Store whose data holds a truthy value at key a, a falsy (empty string)
value at key e, and nothing at key zz or toString. -/
def falsyRoot : Root := ⟨[("a", .str "bc"), ("e", .str "")], [], []⟩

/-- C2 counterexample: two keys outside the reserved trio refute the claimed
read behavior — reading mutations throws a TypeError (the engine's proxy get
invariant on the frozen target), and reading toString, a key the data
mapping does not store, yields the inherited Object.prototype.toString
function rather than absence. -/
theorem guard_read_plain_key_counterexample :
    handleGet falsyRoot "mutations"
      = .error ("TypeError: proxy get invariant violated: " ++ "mutations")
    ∧ assocLookup falsyRoot.data "toString" = none
    ∧ handleGet falsyRoot "toString" = .ok (.val (.builtinFn "toString")) :=
  ⟨rfl, rfl, rfl⟩

/-- C2 (amended): a guarded read of any key other than data, commit, action,
mutations and actions returns the prototype-chain lookup of the key in the
data mapping when that is truthy — an own stored truthy value, or an
inherited Object.prototype member when no own key shadows it — and otherwise
yields undefined (absence, not an error); since the falsy branch ignores
whether an own key is present, a falsy-but-present data value (empty string,
zero, false) is indistinguishable from an absent key under this read path;
reads of mutations and actions throw TypeError (engine proxy invariant on
the frozen target). -/
theorem guard_read_plain_key (root : Root) (k : String)
    (h1 : k ≠ "commit") (h2 : k ≠ "action") (h3 : k ≠ "data")
    (h4 : k ≠ "mutations") (h5 : k ≠ "actions") :
    (truthy (chainLookup root.data k) = true →
        handleGet root k = .ok (.val (chainLookup root.data k)))
    ∧ (truthy (chainLookup root.data k) = false →
        handleGet root k = .ok (.val .undefined)) := by
  unfold handleGet
  rw [if_neg h1, if_neg h2, if_neg h3, if_neg (by simp [h4, h5])]
  constructor
  · intro ht
    rw [if_pos ht]
  · intro ht
    rw [if_neg (by simp [ht])]

/-- C2 witness: on the falsyRoot store, the truthy value at a is returned,
while the present-but-falsy value at e and the absent key zz both read as
undefined — indistinguishable. -/
theorem guard_read_plain_key_witness :
    truthy (chainLookup falsyRoot.data "a") = true
    ∧ handleGet falsyRoot "a" = .ok (.val (chainLookup falsyRoot.data "a"))
    ∧ truthy (chainLookup falsyRoot.data "e") = false
    ∧ handleGet falsyRoot "e" = .ok (.val .undefined)
    ∧ truthy (chainLookup falsyRoot.data "zz") = false
    ∧ handleGet falsyRoot "zz" = .ok (.val .undefined) :=
  ⟨rfl,
   (guard_read_plain_key falsyRoot "a" (by decide) (by decide) (by decide)
     (by decide) (by decide)).1 rfl,
   rfl,
   (guard_read_plain_key falsyRoot "e" (by decide) (by decide) (by decide)
     (by decide) (by decide)).2 rfl,
   rfl,
   (guard_read_plain_key falsyRoot "zz" (by decide) (by decide) (by decide)
     (by decide) (by decide)).2 rfl⟩

/-- C3 counterexample: the claim includes the key data, but assigning to it
raises a TypeError — the target's own data property is frozen, so the
engine rejects the trap's truish answer for any assignable value. -/
theorem guard_write_frozen_counterexample :
    handleSet falsyRoot "data" (.num 1)
      = (falsyRoot, .error ("TypeError: proxy set invariant violated: " ++ "data")) :=
  rfl

/-- C3 (amended): for every key other than the frozen target's own keys
data, mutations and actions, the assignment through the guard — commit and
action included — is a silent success that raises no error, and a read after
the write returns exactly what a read before it would have; assigning to
data, mutations or actions throws TypeError (engine proxy set invariant),
and no write, failing or not, ever changes the root record. -/
theorem guard_write_noop (root : Root) (k : String) (v : JSVal)
    (h1 : k ≠ "data") (h2 : k ≠ "mutations") (h3 : k ≠ "actions") :
    handleSet root k v = (root, .ok true)
    ∧ (handleSet root k v).1.data = root.data
    ∧ handleGet (handleSet root k v).1 k = handleGet root k
    ∧ (∀ kk vv, (handleSet root kk vv).1 = root) := by
  have hs : handleSet root k v = (root, .ok true) := by
    unfold handleSet
    rw [if_neg (by simp [h1, h2, h3])]
  refine ⟨hs, by rw [hs], by rw [hs], ?_⟩
  intro kk vv
  unfold handleSet
  split
  · rfl
  · rfl

/-- C3 witness: writing an ordinary key (and the non-own key commit) through
the guard succeeds silently and changes nothing, while the state also
survives a failing write to data. -/
theorem guard_write_noop_witness :
    handleSet falsyRoot "x" (.str "yz") = (falsyRoot, .ok true)
    ∧ handleGet (handleSet falsyRoot "x" (.str "yz")).1 "x"
        = handleGet falsyRoot "x"
    ∧ handleSet falsyRoot "commit" (.num 3) = (falsyRoot, .ok true)
    ∧ (handleSet falsyRoot "data" (.num 1)).1 = falsyRoot :=
  ⟨(guard_write_noop falsyRoot "x" (.str "yz") (by decide) (by decide)
      (by decide)).1,
   (guard_write_noop falsyRoot "x" (.str "yz") (by decide) (by decide)
      (by decide)).2.2.1,
   (guard_write_noop falsyRoot "commit" (.num 3) (by decide) (by decide)
      (by decide)).1,
   (guard_write_noop falsyRoot "x" (.str "yz") (by decide) (by decide)
      (by decide)).2.2.2 "data" (.num 1)⟩

/-- C7 counterexample: data is not the only key whose read can fail —
reading actions always throws a TypeError, the engine enforcing the proxy
get invariant for the frozen target's own actions property. -/
theorem guard_actions_read_counterexample :
    handleGet falsyRoot "actions"
      = .error ("TypeError: proxy get invariant violated: " ++ "actions") :=
  rfl

/-- C7 (amended): reading the literal key data through the guard always
throws NoDirectAccessForYou, whatever the store's data contains; reads of
mutations and actions always throw TypeError (engine proxy invariant on the
frozen target); and these three are the only keys whose read can fail — a
read of any other key returns a result without raising. -/
theorem guard_data_read_trap (root : Root) (k : String) :
    handleGet root "data"
      = .error "NoDirectAccessForYou: you must use a mutation."
    ∧ handleGet root "mutations"
        = .error ("TypeError: proxy get invariant violated: " ++ "mutations")
    ∧ handleGet root "actions"
        = .error ("TypeError: proxy get invariant violated: " ++ "actions")
    ∧ (k ≠ "data" → k ≠ "mutations" → k ≠ "actions" →
        ∃ r, handleGet root k = .ok r) := by
  refine ⟨rfl, rfl, rfl, ?_⟩
  intro hk hm ha
  unfold handleGet
  by_cases h1 : k = "commit"
  · rw [if_pos h1]
    exact ⟨_, rfl⟩
  · rw [if_neg h1]
    by_cases h2 : k = "action"
    · rw [if_pos h2]
      exact ⟨_, rfl⟩
    · rw [if_neg h2, if_neg hk, if_neg (by simp [hm, ha])]
      by_cases h4 : truthy (chainLookup root.data k) = true
      · rw [if_pos h4]
        exact ⟨_, rfl⟩
      · rw [if_neg h4]
        exact ⟨_, rfl⟩

/-- C7 witness: on the falsyRoot store, reading data throws the trap error
while reading the ordinary key a succeeds. -/
theorem guard_data_read_trap_witness :
    handleGet falsyRoot "data"
      = .error "NoDirectAccessForYou: you must use a mutation."
    ∧ (("a" : String) ≠ "data" ∧ ∃ r, handleGet falsyRoot "a" = .ok r) :=
  ⟨(guard_data_read_trap falsyRoot "a").1,
   by decide,
   (guard_data_read_trap falsyRoot "a").2.2.2 (by decide) (by decide)
     (by decide)⟩

/-- C5: dispatching a registered action name invokes the action on the
supplied value and hands its program back verbatim — the in-flight result,
not awaited — and every commit step the program performs runs against this
store's root, so its state changes land in this store's data. -/
theorem action_dispatch_verbatim (root : Root) (name : String) (value : JSVal)
    (a : Action) (ha : assocLookup root.actions name = some a) :
    actionDispatch root name value = .ok (a value)
    ∧ (∀ (n : String) (w : JSVal) (k : Act) (r2 : Root) (res : JSVal),
        commit root n w = (r2, Except.ok res) →
        runAct (.commitDo n w k) root = runAct k r2) := by
  constructor
  · unfold actionDispatch
    rw [ha]
  · intro n w k r2 res h
    simp only [runAct]
    rw [h]

/-- Mutation setX of the async scenario: `(s, v) => { s.x = v; }`. -/
def setXMut : Mutation := fun d v => (jsSet d "x" v, .undefined)

/-- Action go of the async scenario: `async (commit, v) => { await delay(1);
commit('setX', v); }` — suspend once, then commit setX with the value; the
promise resolves to undefined. -/
def goAction : Action := fun v => .await (.commitDo "setX" v (.ret .undefined))

/-- Root of the async scenario store: data `{x: null}`, mutation setX,
action go. -/
def asyncRoot : Root := ⟨[("x", .null)], [("setX", setXMut)], [("go", goAction)]⟩

/-- C5 witness: the async scenario of the spec — dispatching go with
tigerbalm returns the action's program verbatim, and awaiting that program
commits setX into this store, after which reading x through the guard
returns tigerbalm. -/
theorem action_dispatch_verbatim_witness :
    assocLookup asyncRoot.actions "go" = some goAction
    ∧ actionDispatch asyncRoot "go" (.str "tigerbalm")
        = .ok (goAction (.str "tigerbalm"))
    ∧ runAct (goAction (.str "tigerbalm")) asyncRoot
        = ({ asyncRoot with data := [("x", .str "tigerbalm")] }, Except.ok .undefined)
    ∧ handleGet (runAct (goAction (.str "tigerbalm")) asyncRoot).1 "x"
        = .ok (.val (.str "tigerbalm")) :=
  ⟨rfl,
   (action_dispatch_verbatim asyncRoot "go" (.str "tigerbalm") goAction rfl).1,
   rfl, rfl⟩

/-! Helper lemmas on the normalization pipeline. -/

/-- A group whose resolved candidate is an object holding a reserved-word
key makes setProp fail with DontTouchMyReservedwords naming the first such
key, whatever the group name (the reserved-word scan of validate precedes the
value-type scan). -/
theorem setProp_reserved_error (value : JSVal) (desc : String)
    (w : String) (pv : JSVal)
    (h1 : typeof (resolveSeed value) = "object")
    (h2 : findReserved (jsKeys (resolveSeed value)) = some (w, pv)) :
    setProp value desc = .error ("DontTouchMyReservedwords: " ++ w) := by
  unfold setProp validate
  rw [if_pos h1, h2]

/-- A falsy group value resolves to the empty mapping (the `if (!value)
ret = empty` step; a function is never falsy, so the producer step cannot
overwrite it). -/
theorem resolveSeed_falsy (v : JSVal) (hv : truthy v = false) :
    resolveSeed v = .obj [] := by
  cases v <;> simp_all [resolveSeed, truthy]

/-- Validate accepts the empty object under any allowed-types list. -/
theorem validate_empty (types : List String) (desc : String) :
    validate (.obj []) types desc = .ok (.obj []) := by
  unfold validate
  by_cases hh : types.head? = some "*"
  · rw [if_pos hh]
    rfl
  · rw [if_neg hh]
    rfl

/-- A falsy group value normalizes to the empty mapping. -/
theorem setProp_falsy (v : JSVal) (desc : String) (hv : truthy v = false) :
    setProp v desc = .ok [] := by
  unfold setProp
  rw [resolveSeed_falsy v hv, validate_empty]
  rfl

/-- A truthy non-function group value is used as-is by the resolution
steps. -/
theorem resolveSeed_truthy (v : JSVal) (hv : truthy v = true)
    (hf : typeof v ≠ "function") : resolveSeed v = v := by
  cases v <;> simp_all [resolveSeed, truthy, typeof]

/-- A truthy group value that is neither a function nor object-like makes
setProp fail with ValidationError naming the group. -/
theorem setProp_nonobject_error (v : JSVal) (desc : String)
    (hv : truthy v = true) (hf : typeof v ≠ "function")
    (ho : typeof v ≠ "object") :
    setProp v desc
      = .error ("ValidationError: " ++ desc ++ " doesn't resolve to an object") := by
  unfold setProp validate
  rw [resolveSeed_truthy v hv hf, if_neg ho]

/-- C8: on a valid seed object, when a reserved word w turns up as a key of
a group's resolved candidate mapping at construction time — in data, or in
mutations with data normalizing fine, or in actions with data and mutations
normalizing fine — construction fails with DontTouchMyReservedwords naming
w, and no store record is returned. -/
theorem store_reserved_key_rejected (seed : JSVal) (w : String) (pv : JSVal)
    (h0 : truthy seed = true) (h1 : typeof seed = "object")
    (_hw : w ∈ RESERVEDWORDS)
    (h : (typeof (resolveSeed (seedGet seed "data")) = "object"
            ∧ findReserved (jsKeys (resolveSeed (seedGet seed "data")))
                = some (w, pv))
       ∨ ((∃ d, setProp (seedGet seed "data") "data" = .ok d)
            ∧ typeof (resolveSeed (seedGet seed "mutations")) = "object"
            ∧ findReserved (jsKeys (resolveSeed (seedGet seed "mutations")))
                = some (w, pv))
       ∨ ((∃ d, setProp (seedGet seed "data") "data" = .ok d)
            ∧ (∃ ms, setProp (seedGet seed "mutations") "mutations" = .ok ms)
            ∧ typeof (resolveSeed (seedGet seed "actions")) = "object"
            ∧ findReserved (jsKeys (resolveSeed (seedGet seed "actions")))
                = some (w, pv))) :
    Store seed = .error ("DontTouchMyReservedwords: " ++ w) := by
  unfold Store
  rw [if_neg (by simp [h0, h1])]
  rcases h with ⟨hc, hf⟩ | ⟨⟨d, hd⟩, hc, hf⟩ | ⟨⟨d, hd⟩, ⟨ms, hms⟩, hc, hf⟩
  · rw [setProp_reserved_error _ _ _ _ hc hf]
  · rw [hd, setProp_reserved_error _ _ _ _ hc hf]
  · rw [hd, hms, setProp_reserved_error _ _ _ _ hc hf]

/-- Seed placing the reserved word commit as a key of the data group. -/
def reservedSeed : JSVal := .obj [("data", .obj [("commit", .num 1)])]

/-- C8 witness: the seed `{data: {commit: 1}}` is rejected at construction
with DontTouchMyReservedwords naming commit. -/
theorem store_reserved_key_rejected_witness :
    truthy reservedSeed = true
    ∧ typeof reservedSeed = "object"
    ∧ "commit" ∈ RESERVEDWORDS
    ∧ Store reservedSeed = .error ("DontTouchMyReservedwords: " ++ "commit") :=
  ⟨rfl, rfl, by decide,
   store_reserved_key_rejected reservedSeed "commit" (.num 1) rfl rfl
     (by decide) (Or.inl ⟨rfl, rfl⟩)⟩

/-- Seed supplying the number 0 — a present, non-callable, non-object
value — as the data group, alongside one registered mutation. -/
def falsyGroupSeed : JSVal :=
  .obj [("data", .num 0), ("mutations", .obj [("m", .fn .undefined)])]

/-- C9 counterexample: the claim says a present, non-callable, non-object
group value (for example a number supplied as seed.data) makes construction
fail with ValidationError, but the seed `{data: 0, mutations: {m: fn}}`
supplies the number 0 as seed.data and construction succeeds — the falsy
value is treated as absent (empty mapping) instead. -/
theorem store_falsy_group_accepted :
    typeof (.num 0 : JSVal) ≠ "object"
    ∧ typeof (.num 0 : JSVal) ≠ "function"
    ∧ seedGet falsyGroupSeed "data" = .num 0
    ∧ Store falsyGroupSeed = .ok ⟨[], [("m", .fn .undefined)], []⟩ :=
  ⟨by decide, by decide, rfl, rfl⟩

/-- C9 (amended): a callable group value is resolved by invoking it with no
arguments (the candidate is the invocation's result when that result is
truthy); a falsy group value is treated as an empty mapping; a truthy
non-callable value is used as-is and, when it is not object-like, the data
group's normalization — and with it construction — fails with ValidationError
naming the group. -/
theorem seed_group_resolution (seed v p : JSVal) (g : String)
    (h0 : truthy seed = true) (h1 : typeof seed = "object") :
    (truthy p = true → resolveSeed (.fn p) = p)
    ∧ (truthy v = false → setProp v g = .ok [])
    ∧ (truthy v = true → typeof v ≠ "function" → typeof v ≠ "object" →
        setProp v g
          = .error ("ValidationError: " ++ g ++ " doesn't resolve to an object"))
    ∧ (truthy (seedGet seed "data") = true →
        typeof (seedGet seed "data") ≠ "function" →
        typeof (seedGet seed "data") ≠ "object" →
        Store seed
          = .error ("ValidationError: " ++ "data" ++ " doesn't resolve to an object")) := by
  refine ⟨?_, ?_, ?_, ?_⟩
  · intro hp
    simp [resolveSeed, hp]
  · intro hv
    exact setProp_falsy v g hv
  · intro hv hf ho
    exact setProp_nonobject_error v g hv hf ho
  · intro hv hf ho
    unfold Store
    rw [if_neg (by simp [h0, h1])]
    rw [setProp_nonobject_error _ _ hv hf ho]

/-- Seed supplying the truthy number 3 as the data group. -/
def numGroupSeed : JSVal := .obj [("data", .num 3)]

/-- C9 (amended) witness: the producer `() => 'data'` resolves to the string
data; a falsy mutations value normalizes to the empty mapping; and the seed
`{data: 3}` — a truthy, non-callable, non-object data group — is rejected at
construction with ValidationError naming the data group. -/
theorem seed_group_resolution_witness :
    truthy numGroupSeed = true
    ∧ typeof numGroupSeed = "object"
    ∧ resolveSeed (.fn (.str "data")) = .str "data"
    ∧ setProp (.num 3) "data"
        = .error ("ValidationError: " ++ "data" ++ " doesn't resolve to an object")
    ∧ setProp (.bool false) "mutations" = .ok []
    ∧ seedGet numGroupSeed "data" = .num 3
    ∧ Store numGroupSeed
        = .error ("ValidationError: " ++ "data" ++ " doesn't resolve to an object") :=
  ⟨rfl, rfl,
   (seed_group_resolution numGroupSeed (.num 3) (.str "data") "data" rfl rfl).1 rfl,
   (seed_group_resolution numGroupSeed (.num 3) (.str "data") "data" rfl rfl).2.2.1
     rfl (by decide) (by decide),
   (seed_group_resolution numGroupSeed (.bool false) (.str "data") "mutations"
     rfl rfl).2.1 rfl,
   rfl,
   (seed_group_resolution numGroupSeed (.num 3) (.str "data") "data" rfl rfl).2.2.2
     rfl (by decide) (by decide)⟩

end SimpleStore
